import Mathlib

/-!
Verification development for the Reachy-Mini closed-loop head-tracking core.

Real-valued quantities of the Python source are embedded as rationals (`ℚ`);
machine integers as `ℤ`/`ℕ`.  Stateful methods become explicit state-passing
functions returning the updated state together with the method's return value.
-/

/-- Clamping pattern `max(lo, min(hi, x))` used throughout the source. -/
def clampQ (lo hi x : ℚ) : ℚ := max lo (min hi x)

/-- State of `HeadYawController`
(`03_object_tracking/object_tracking_yolo/head_yaw_controller.py`, identical
class in `object_tracking_yolo_web/backend/tracker_core.py`).  `yaw_limit`
holds the limit already converted to radians, as stored by `__init__`. -/
structure HeadYawController where
  pid_p : ℚ
  pid_i : ℚ
  pid_d : ℚ
  gain : ℚ
  yaw_limit : ℚ
  dead_zone : ℚ
  current_yaw : ℚ
  integral : ℚ
  last_error : ℚ
deriving DecidableEq

/-- Method `HeadYawController.normalize_to_center`. -/
def HeadYawController.normalize_to_center (_c : HeadYawController) (x frame_width : ℚ) : ℚ :=
  (x - frame_width / 2) / (frame_width / 2)

/-- Method `HeadYawController.compute`: returns the updated controller state
(the method mutates `integral` and `last_error`) together with the returned
`new_yaw`. -/
def HeadYawController.compute (c : HeadYawController) (target_x frame_width dt : ℚ) :
    HeadYawController × ℚ :=
  let error := c.normalize_to_center target_x frame_width
  if |error| < c.dead_zone then
    (c, c.current_yaw)
  else
    let p := c.pid_p * error
    let integral := clampQ (-1) 1 (c.integral + error * dt)
    let i := c.pid_i * integral
    let d := if dt > 0 then c.pid_d * (error - c.last_error) / dt else 0
    let control := clampQ (-1) 1 (p + i + d)
    let yaw_adjustment := -control * c.gain
    let new_yaw := clampQ (-c.yaw_limit) c.yaw_limit (c.current_yaw + yaw_adjustment)
    ({ c with integral := integral, last_error := error }, new_yaw)

/-- Method `HeadYawController.update`. -/
def HeadYawController.update (c : HeadYawController) (new_yaw : ℚ) : HeadYawController :=
  { c with current_yaw := new_yaw }

/-- Method `HeadYawController.reset`. -/
def HeadYawController.reset (c : HeadYawController) : HeadYawController :=
  { c with current_yaw := 0, integral := 0, last_error := 0 }

/-- State of `HeadPitchController` (defined in
`object_tracking_yolo/track_object.py` and in
`object_tracking_yolo_web/backend/tracker_core.py`, identically). -/
structure HeadPitchController where
  pid_p : ℚ
  pid_i : ℚ
  pid_d : ℚ
  gain : ℚ
  pitch_limit : ℚ
  dead_zone : ℚ
  current_pitch : ℚ
  integral : ℚ
  last_error : ℚ
deriving DecidableEq

/-- Method `HeadPitchController.normalize_to_center`. -/
def HeadPitchController.normalize_to_center (_c : HeadPitchController) (y frame_height : ℚ) : ℚ :=
  (y - frame_height / 2) / (frame_height / 2)

/-- Method `HeadPitchController.compute`.  Identical to the yaw controller
except for the sign of the adjustment (`pitch_adjustment = control * gain`,
no negation). -/
def HeadPitchController.compute (c : HeadPitchController) (target_y frame_height dt : ℚ) :
    HeadPitchController × ℚ :=
  let error := c.normalize_to_center target_y frame_height
  if |error| < c.dead_zone then
    (c, c.current_pitch)
  else
    let p := c.pid_p * error
    let integral := clampQ (-1) 1 (c.integral + error * dt)
    let i := c.pid_i * integral
    let d := if dt > 0 then c.pid_d * (error - c.last_error) / dt else 0
    let control := clampQ (-1) 1 (p + i + d)
    let pitch_adjustment := control * c.gain
    let new_pitch := clampQ (-c.pitch_limit) c.pitch_limit (c.current_pitch + pitch_adjustment)
    ({ c with integral := integral, last_error := error }, new_pitch)

/-- Method `HeadPitchController.update`. -/
def HeadPitchController.update (c : HeadPitchController) (new_pitch : ℚ) : HeadPitchController :=
  { c with current_pitch := new_pitch }

/-- Method `HeadPitchController.reset`. -/
def HeadPitchController.reset (c : HeadPitchController) : HeadPitchController :=
  { c with current_pitch := 0, integral := 0, last_error := 0 }

/-- Append to a `collections.deque` with `maxlen`: the newest element goes to
the right, the oldest is evicted from the left once the capacity is reached. -/
def dequeAppend (maxlen : ℕ) (h : List ℚ) (v : ℚ) : List ℚ :=
  let h := h ++ [v]
  if maxlen < h.length then h.drop (h.length - maxlen) else h

/-- State of `PositionFilter`
(`object_tracking_yolo/position_filter.py`, identical class in
`object_tracking_yolo_web/backend/tracker_core.py`).  The histories are the
two `deque(maxlen=window_size)` objects, newest element last.  The default
`jump_threshold` (30) is an `int`, so halving it in `filter` uses Python's
floor division. -/
structure PositionFilter where
  window_size : ℕ
  jump_threshold : ℤ
  x_history : List ℚ
  y_history : List ℚ
  last_output_x : Option ℚ
  last_output_y : Option ℚ
deriving DecidableEq

/-- Constructor `PositionFilter.__init__`. -/
def PositionFilter.init (window_size : ℕ) (jump_threshold : ℤ) : PositionFilter :=
  { window_size := window_size
    jump_threshold := jump_threshold
    x_history := []
    y_history := []
    last_output_x := none
    last_output_y := none }

/-- Method `PositionFilter.filter`: returns the updated filter state together
with the returned `(filtered_x, filtered_y)` pair.  `-t // 2` and `t // 2`
are Python floor divisions on the integer threshold `t`, hence `Int.fdiv`. -/
def PositionFilter.filter (f : PositionFilter) (x y : ℚ) : PositionFilter × (ℚ × ℚ) :=
  match f.last_output_x, f.last_output_y with
  | some last_x, some last_y =>
    let delta_x := |x - last_x|
    let delta_y := |y - last_y|
    if (f.jump_threshold : ℚ) < delta_x ∨ (f.jump_threshold : ℚ) < delta_y then
      let limited_x := last_x +
        clampQ ((Int.fdiv (-f.jump_threshold) 2 : ℤ) : ℚ)
          ((Int.fdiv f.jump_threshold 2 : ℤ) : ℚ) (x - last_x)
      let limited_y := last_y +
        clampQ ((Int.fdiv (-f.jump_threshold) 2 : ℤ) : ℚ)
          ((Int.fdiv f.jump_threshold 2 : ℤ) : ℚ) (y - last_y)
      let x_history := dequeAppend f.window_size f.x_history limited_x
      let y_history := dequeAppend f.window_size f.y_history limited_y
      let filtered_x := if 0 < x_history.length then x_history.sum / x_history.length else x
      let filtered_y := if 0 < y_history.length then y_history.sum / y_history.length else y
      ({ f with x_history := x_history, y_history := y_history,
                last_output_x := some filtered_x, last_output_y := some filtered_y },
       (filtered_x, filtered_y))
    else
      let x_history := dequeAppend f.window_size f.x_history x
      let y_history := dequeAppend f.window_size f.y_history y
      let filtered_x := if 0 < x_history.length then x_history.sum / x_history.length else x
      let filtered_y := if 0 < y_history.length then y_history.sum / y_history.length else y
      ({ f with x_history := x_history, y_history := y_history,
                last_output_x := some filtered_x, last_output_y := some filtered_y },
       (filtered_x, filtered_y))
  | _, _ =>
    ({ f with x_history := dequeAppend f.window_size f.x_history x,
              y_history := dequeAppend f.window_size f.y_history y,
              last_output_x := some x, last_output_y := some y },
     (x, y))

/-- Method `PositionFilter.reset`. -/
def PositionFilter.reset (f : PositionFilter) : PositionFilter :=
  { f with x_history := [], y_history := [],
           last_output_x := none, last_output_y := none }

/-- Detection tuple `(x1, y1, x2, y2, conf, class_id)` produced by the
external detector (`yolo_detector.py`). -/
structure Detection where
  x1 : ℚ
  y1 : ℚ
  x2 : ℚ
  y2 : ℚ
  conf : ℚ
  class_id : ℤ
deriving DecidableEq

/-- Center of a detection box, `((x1+x2)/2, (y1+y2)/2)`. -/
def detCenter (d : Detection) : ℚ × ℚ := ((d.x1 + d.x2) / 2, (d.y1 + d.y2) / 2)

/-- Squared Euclidean distance from a detection's center to the frame center.
The source compares `math.sqrt(dx**2 + dy**2)` values; `sqrt` is strictly
monotone on nonnegative reals, so comparing the squared distances makes the
selection loop pick exactly the same detection (the bridge to true Euclidean
distance is proved in the theorems below via `Real.sqrt`). -/
def distSqToCenter (frame_width frame_height : ℚ) (d : Detection) : ℚ :=
  ((detCenter d).1 - frame_width / 2) ^ 2 + ((detCenter d).2 - frame_height / 2) ^ 2

/-- Selection loop shared by `YoloDetector.find_target_center`
(`yolo_detector.py`) and `ObjectTrackerV2.select_best_target`
(`object_tracking_v2.py`): keep the current best detection and its distance,
replace it only on a strictly smaller distance (`distance < min_distance`),
so the first minimizer wins.  The initial `min_distance = inf` is modelled by
the `none` accumulator, which the first element always beats. -/
def selectLoop (frame_width frame_height : ℚ) :
    List Detection → Option (Detection × ℚ) → Option (Detection × ℚ)
  | [], best => best
  | d :: rest, best =>
    let distance := distSqToCenter frame_width frame_height d
    match best with
    | none => selectLoop frame_width frame_height rest (some (d, distance))
    | some (b, m) =>
      if distance < m then selectLoop frame_width frame_height rest (some (d, distance))
      else selectLoop frame_width frame_height rest (some (b, m))

/-- Method `ObjectTrackerV2.select_best_target`: `None` on an empty list,
otherwise the first detection whose center is closest to the frame center. -/
def select_best_target (detections : List Detection) (frame_width frame_height : ℚ) :
    Option Detection :=
  if detections = [] then none
  else
    match selectLoop frame_width frame_height detections none with
    | some (b, _) => some b
    | none => none

/-- Method `YoloDetector.find_target_center`: returns
`(center, best_detection, area)`, with `(None, None, 0)` when there is no
detection. -/
def find_target_center (detections : List Detection) (frame_width frame_height : ℚ) :
    Option (ℚ × ℚ) × Option Detection × ℚ :=
  if detections = [] then (none, none, 0)
  else
    match selectLoop frame_width frame_height detections none with
    | some (b, _) => (some (detCenter b), some b, (b.x2 - b.x1) * (b.y2 - b.y1))
    | none => (none, none, 0)

/-- State of `VoiceActivityDetector` (`06_sound_tracking/sound_tracking.py`).
The wall-clock reads `time.time()` are modelled by passing the current time
to `update` explicitly. -/
structure VoiceActivityDetector where
  min_duration : ℚ
  cooldown : ℚ
  speech_start_time : Option ℚ
  last_detection_time : ℚ
  in_cooldown : Bool
deriving DecidableEq

/-- Body of `VoiceActivityDetector.update` after the cooldown check. -/
def VoiceActivityDetector.updateSpeech (v : VoiceActivityDetector) (current_time : ℚ)
    (speech_detected : Bool) : VoiceActivityDetector × Bool :=
  if speech_detected then
    match v.speech_start_time with
    | none => ({ v with speech_start_time := some current_time }, false)
    | some start =>
      if v.min_duration ≤ current_time - start then
        ({ v with last_detection_time := current_time, in_cooldown := true,
                  speech_start_time := none }, true)
      else (v, false)
  else ({ v with speech_start_time := none }, false)

/-- Method `VoiceActivityDetector.update`: during cooldown every input returns
`False`; once `cooldown` seconds have elapsed the flag is cleared and the
speech logic resumes. -/
def VoiceActivityDetector.update (v : VoiceActivityDetector) (current_time : ℚ)
    (speech_detected : Bool) : VoiceActivityDetector × Bool :=
  if v.in_cooldown then
    if v.cooldown ≤ current_time - v.last_detection_time then
      VoiceActivityDetector.updateSpeech { v with in_cooldown := false }
        current_time speech_detected
    else (v, false)
  else VoiceActivityDetector.updateSpeech v current_time speech_detected

/-- Run a sequence of `(current_time, speech_detected)` calls through
`VoiceActivityDetector.update`, collecting the outputs. -/
def runVAD (v : VoiceActivityDetector) :
    List (ℚ × Bool) → VoiceActivityDetector × List Bool
  | [] => (v, [])
  | (t, b) :: rest =>
    let step := v.update t b
    let tail := runVAD step.1 rest
    (tail.1, step.2 :: tail.2)

/-- Tracking-relevant state of `YoloObjectTracker`
(`object_tracking_yolo/track_object.py`). -/
structure YoloObjectTracker where
  filter : PositionFilter
  pitch_controller : HeadPitchController
  yaw_controller : HeadYawController
  manual_mode : Bool
  is_tracking : Bool
  last_detection_time : ℚ
  detection_timeout : ℚ
deriving DecidableEq

/-- Control part of `YoloObjectTracker.process_frame`.  The external detector
and the drawing code are outside the core: its output for the current frame
is the optional target `center`; the frame is `width × height`.  The result
pairs the new tracker state with the optional `(new_pitch, new_yaw)` command
sent via `send_control` (`none` when no command is issued this tick). -/
def YoloObjectTracker.process_frame (s : YoloObjectTracker) (center : Option (ℚ × ℚ))
    (width height current_time : ℚ) : YoloObjectTracker × Option (ℚ × ℚ) :=
  let dt := if 0 < s.last_detection_time then current_time - s.last_detection_time else 3 / 100
  match center with
  | some (cx, cy) =>
    let s := { s with is_tracking := true, last_detection_time := current_time }
    let fres := s.filter.filter cx cy
    let s := { s with filter := fres.1 }
    if s.manual_mode then (s, none)
    else
      let pres := s.pitch_controller.compute fres.2.2 height dt
      let yres := s.yaw_controller.compute fres.2.1 width dt
      ({ s with pitch_controller := pres.1.update pres.2,
                yaw_controller := yres.1.update yres.2 },
       some (pres.2, yres.2))
  | none =>
    if s.detection_timeout < current_time - s.last_detection_time then
      ({ s with is_tracking := false,
                pitch_controller := s.pitch_controller.reset,
                yaw_controller := s.yaw_controller.reset,
                filter := s.filter.reset }, none)
    else (s, none)

/-- Control tick of the tracking loop restricted to the yaw axis:
`new_yaw = compute(...)` followed by `update(new_yaw)` (`process_frame`). -/
def HeadYawController.tickYaw (c : HeadYawController) (target_x frame_width dt : ℚ) :
    HeadYawController :=
  let r := c.compute target_x frame_width dt
  r.1.update r.2

/-- Iterated yaw control ticks with a constant target (constant error). -/
def tickYawIter (c : HeadYawController) (target_x frame_width dt : ℚ) : ℕ → HeadYawController
  | 0 => c
  | n + 1 => (tickYawIter c target_x frame_width dt n).tickYaw target_x frame_width dt

/-- Reference variant of `HeadYawController.compute` with the derivative term
unconditionally zero, following the spec's description of the `dt ≤ 0` edge
case ("derivative term forced to 0", proportional and integral as usual). -/
def HeadYawController.computeDerivFreeSpec (c : HeadYawController)
    (target_x frame_width dt : ℚ) : HeadYawController × ℚ :=
  let error := c.normalize_to_center target_x frame_width
  if |error| < c.dead_zone then
    (c, c.current_yaw)
  else
    let p := c.pid_p * error
    let integral := clampQ (-1) 1 (c.integral + error * dt)
    let i := c.pid_i * integral
    let d : ℚ := 0
    let control := clampQ (-1) 1 (p + i + d)
    let yaw_adjustment := -control * c.gain
    let new_yaw := clampQ (-c.yaw_limit) c.yaw_limit (c.current_yaw + yaw_adjustment)
    ({ c with integral := integral, last_error := error }, new_yaw)

/-- Reference variant of `HeadPitchController.compute` with the derivative
term unconditionally zero (spec's `dt ≤ 0` edge case). -/
def HeadPitchController.computeDerivFreeSpec (c : HeadPitchController)
    (target_y frame_height dt : ℚ) : HeadPitchController × ℚ :=
  let error := c.normalize_to_center target_y frame_height
  if |error| < c.dead_zone then
    (c, c.current_pitch)
  else
    let p := c.pid_p * error
    let integral := clampQ (-1) 1 (c.integral + error * dt)
    let i := c.pid_i * integral
    let d : ℚ := 0
    let control := clampQ (-1) 1 (p + i + d)
    let pitch_adjustment := control * c.gain
    let new_pitch := clampQ (-c.pitch_limit) c.pitch_limit (c.current_pitch + pitch_adjustment)
    ({ c with integral := integral, last_error := error }, new_pitch)

/-- Euclidean distance from a detection's center to the frame center, as the
source computes it (`math.sqrt(dx**2 + dy**2)`), valued in `ℝ`. -/
noncomputable def eucDistToCenter (frame_width frame_height : ℚ) (d : Detection) : ℝ :=
  Real.sqrt ((distSqToCenter frame_width frame_height d : ℚ) : ℝ)

/-- Output of `clampQ (-L) L` is bounded by `L` in absolute value when
`0 ≤ L`. -/
lemma abs_clampQ_le (L x : ℚ) (hL : 0 ≤ L) : |clampQ (-L) L x| ≤ L := by
  rw [abs_le]
  constructor
  · exact le_max_left _ _
  · exact max_le (by linarith) (min_le_left _ _)

/-- Clamping is the identity on values already in range. -/
lemma clampQ_eq_self (L x : ℚ) (hlo : -L ≤ x) (hhi : x ≤ L) : clampQ (-L) L x = x := by
  unfold clampQ
  rw [min_eq_right hhi, max_eq_right hlo]

/-- C1: For every input (target coordinate, frame dimension, dt) and every
setting of the PID gains and output gain, the angle returned by
`HeadYawController.compute` / `HeadPitchController.compute` lies within
`[-axis_limit, +axis_limit]` for that axis, for every controller state in
which `compute()` may be called (i.e. every state whose committed angle is
itself within the limit — this invariant holds at construction, is preserved
by the tracking loop's `update(compute(...))`, and is restored by `reset`). -/
theorem compute_output_within_axis_limit (cy : HeadYawController) (cp : HeadPitchController)
    (target_x frame_width target_y frame_height dty dtp : ℚ)
    (hy : |cy.current_yaw| ≤ cy.yaw_limit) (hp : |cp.current_pitch| ≤ cp.pitch_limit) :
    |(cy.compute target_x frame_width dty).2| ≤ cy.yaw_limit ∧
    |(cp.compute target_y frame_height dtp).2| ≤ cp.pitch_limit := by
  constructor
  · by_cases h : |cy.normalize_to_center target_x frame_width| < cy.dead_zone
    · simp only [HeadYawController.compute, if_pos h]
      exact hy
    · simp only [HeadYawController.compute, if_neg h]
      exact abs_clampQ_le _ _ ((abs_nonneg _).trans hy)
  · by_cases h : |cp.normalize_to_center target_y frame_height| < cp.dead_zone
    · simp only [HeadPitchController.compute, if_pos h]
      exact hp
    · simp only [HeadPitchController.compute, if_neg h]
      exact abs_clampQ_le _ _ ((abs_nonneg _).trans hp)

/-- Witness for C1 at a concrete controller pair and concrete inputs. -/
theorem compute_output_within_axis_limit_witness :
    |((⟨1/2, 0, 0, 2/25, 14/5, 1/20, 0, 0, 0⟩ : HeadYawController).compute 500 640 (1/30)).2| ≤
        (⟨1/2, 0, 0, 2/25, 14/5, 1/20, 0, 0, 0⟩ : HeadYawController).yaw_limit ∧
      |((⟨1/2, 0, 0, 2/25, 3/5, 1/20, 0, 0, 0⟩ : HeadPitchController).compute 100 480 (1/30)).2| ≤
        (⟨1/2, 0, 0, 2/25, 3/5, 1/20, 0, 0, 0⟩ : HeadPitchController).pitch_limit :=
  compute_output_within_axis_limit _ _ 500 640 100 480 (1/30) (1/30) (by norm_num) (by norm_num)

/-- C2: For a 640×480 frame, a single detection centered at (400, 240),
dead_zone = 0.05, Kp = 0.8, Ki = Kd = 0, output gain = 0.08, and both axis
controllers starting from angle 0 with zero integral and last_error, one
control tick moves the yaw angle by exactly 0.8·0.25·0.08 = 0.016 rad — in
the negative direction, per the calibrated sign convention coded in
`yaw_adjustment = -control * gain` — and leaves the pitch angle unchanged.
`L` is the yaw limit in radians (the deployed `radians(160) ≈ 2.79` satisfies
`2/125 ≤ L`); the pitch limit `Lp` is arbitrary. -/
theorem end_to_end_single_tick (L Lp dt : ℚ) (hL : 2 / 125 ≤ L) :
    ((⟨4/5, 0, 0, 2/25, L, 1/20, 0, 0, 0⟩ : HeadYawController).compute 400 640 dt).2 =
        -(2/125) ∧
      |((⟨4/5, 0, 0, 2/25, L, 1/20, 0, 0, 0⟩ : HeadYawController).compute 400 640 dt).2 -
          (⟨4/5, 0, 0, 2/25, L, 1/20, 0, 0, 0⟩ : HeadYawController).current_yaw| = 2/125 ∧
      ((⟨4/5, 0, 0, 2/25, Lp, 1/20, 0, 0, 0⟩ : HeadPitchController).compute 240 480 dt).2 =
        (⟨4/5, 0, 0, 2/25, Lp, 1/20, 0, 0, 0⟩ : HeadPitchController).current_pitch := by
  have h1 : ((⟨4/5, 0, 0, 2/25, L, 1/20, 0, 0, 0⟩ : HeadYawController).compute 400 640 dt).2 =
      -(2/125) := by
    simp only [HeadYawController.compute, HeadYawController.normalize_to_center]
    rw [if_neg (by norm_num [abs_of_nonneg])]
    rcases lt_or_le 0 dt with h | h
    · rw [if_pos h]
      show clampQ (-L) L (0 + -(clampQ (-1) 1 (4/5 * _ + 0 * _ + 0 * _ / dt)) * (2/25)) = _
      rw [zero_mul, zero_mul, zero_div, add_zero]
      norm_num [clampQ]
      rw [min_eq_right (by linarith), max_eq_right (by linarith)]
    · rw [if_neg (not_lt.mpr h)]
      show clampQ (-L) L (0 + -(clampQ (-1) 1 (4/5 * _ + 0 * _ + 0)) * (2/25)) = _
      rw [zero_mul, add_zero]
      norm_num [clampQ]
      rw [min_eq_right (by linarith), max_eq_right (by linarith)]
  refine ⟨h1, ?_, ?_⟩
  · rw [h1]
    show |-(2/125) - (0:ℚ)| = 2/125
    rw [sub_zero, abs_neg, abs_of_nonneg (by norm_num)]
  · simp only [HeadPitchController.compute, HeadPitchController.normalize_to_center]
    rw [if_pos (by norm_num)]

/-- Witness for C2 with the yaw limit instantiated to 3 rad and dt = 1/30. -/
theorem end_to_end_single_tick_witness :
    ((⟨4/5, 0, 0, 2/25, 3, 1/20, 0, 0, 0⟩ : HeadYawController).compute 400 640 (1/30)).2 =
        -(2/125) ∧
      |((⟨4/5, 0, 0, 2/25, 3, 1/20, 0, 0, 0⟩ : HeadYawController).compute 400 640 (1/30)).2 -
          (⟨4/5, 0, 0, 2/25, 3, 1/20, 0, 0, 0⟩ : HeadYawController).current_yaw| = 2/125 ∧
      ((⟨4/5, 0, 0, 2/25, 1, 1/20, 0, 0, 0⟩ : HeadPitchController).compute 240 480 (1/30)).2 =
        (⟨4/5, 0, 0, 2/25, 1, 1/20, 0, 0, 0⟩ : HeadPitchController).current_pitch :=
  end_to_end_single_tick 3 1 (1/30) (by norm_num)

/-- One `compute` call keeps the raw integral accumulator in `[-1, 1]`: the
dead-zone path leaves it untouched, every other path clamps it. -/
lemma compute_integral_bounded (c : HeadYawController) (target_x frame_width dt : ℚ)
    (h : |c.integral| ≤ 1) : |((c.compute target_x frame_width dt).1).integral| ≤ 1 := by
  by_cases hdz : |c.normalize_to_center target_x frame_width| < c.dead_zone
  · simp only [HeadYawController.compute, if_pos hdz]
    exact h
  · simp only [HeadYawController.compute, if_neg hdz]
    exact abs_clampQ_le 1 _ zero_le_one

/-- C7: After every call to `compute()`, the raw integral accumulator lies
within `[-1, 1]` (it is clamped before scaling by `Ki`), for every state
whose accumulator already satisfies the bound (as it does at construction and
after `reset`); in particular, feeding a constant one-sided error — e.g. the
maximal error, a target pinned at the frame edge — for arbitrarily many
control ticks never drives the accumulator beyond `±1`. -/
theorem integral_antiwindup (c : HeadYawController) (target_x frame_width dt : ℚ)
    (h : |c.integral| ≤ 1) :
    |((c.compute target_x frame_width dt).1).integral| ≤ 1 ∧
      ∀ n : ℕ, |(tickYawIter c target_x frame_width dt n).integral| ≤ 1 := by
  refine ⟨compute_integral_bounded c target_x frame_width dt h, ?_⟩
  intro n
  induction n with
  | zero => exact h
  | succ n ih =>
    have heq : ((tickYawIter c target_x frame_width dt n).tickYaw target_x frame_width
        dt).integral =
        (((tickYawIter c target_x frame_width dt n).compute target_x frame_width
          dt).1).integral := rfl
    show |((tickYawIter c target_x frame_width dt n).tickYaw target_x frame_width dt).integral| ≤ 1
    rw [heq]
    exact compute_integral_bounded _ _ _ _ ih

/-- Witness for C7: maximal one-sided error (target at the right frame edge,
`error = 1`) from a freshly constructed controller. -/
theorem integral_antiwindup_witness :
    |(((⟨1, 1, 0, 1, 3, 0, 0, 0, 0⟩ : HeadYawController).compute 640 640 1).1).integral| ≤ 1 ∧
      ∀ n : ℕ, |(tickYawIter (⟨1, 1, 0, 1, 3, 0, 0, 0, 0⟩ : HeadYawController) 640 640 1
        n).integral| ≤ 1 :=
  integral_antiwindup ⟨1, 1, 0, 1, 3, 0, 0, 0, 0⟩ 640 640 1 (by norm_num)

/-- C9: For every `compute()` call with `dt ≤ 0` no division by zero occurs:
the run is identical to the reference computation whose derivative term is
literally `0`, while the proportional and integral terms are computed as
usual (both for the yaw and for the pitch controller). -/
theorem dt_nonpos_zero_derivative (cy : HeadYawController) (cp : HeadPitchController)
    (target_x frame_width target_y frame_height dt : ℚ) (hdt : dt ≤ 0) :
    cy.compute target_x frame_width dt = cy.computeDerivFreeSpec target_x frame_width dt ∧
      cp.compute target_y frame_height dt = cp.computeDerivFreeSpec target_y frame_height dt := by
  have hneg : ¬(0 < dt) := not_lt.mpr hdt
  constructor
  · simp only [HeadYawController.compute, HeadYawController.computeDerivFreeSpec, if_neg hneg]
  · simp only [HeadPitchController.compute, HeadPitchController.computeDerivFreeSpec, if_neg hneg]

/-- Witness for C9 at `dt = 0`. -/
theorem dt_nonpos_zero_derivative_witness :
    (⟨1, 2, 3, 1, 3, 0, 0, 0, 1⟩ : HeadYawController).compute 100 640 0 =
        (⟨1, 2, 3, 1, 3, 0, 0, 0, 1⟩ : HeadYawController).computeDerivFreeSpec 100 640 0 ∧
      (⟨1, 2, 3, 1, 1, 0, 0, 0, 1⟩ : HeadPitchController).compute 200 480 0 =
        (⟨1, 2, 3, 1, 1, 0, 0, 0, 1⟩ : HeadPitchController).computeDerivFreeSpec 200 480 0 :=
  dt_nonpos_zero_derivative ⟨1, 2, 3, 1, 3, 0, 0, 0, 1⟩ ⟨1, 2, 3, 1, 1, 0, 0, 0, 1⟩
    100 640 200 480 0 le_rfl

/-- C10: `compute()` never modifies the committed angle state
(`current_yaw` / `current_pitch`) — only `update()` (which sets it to its
argument) or `reset()` (which zeroes it) change it; moreover, whenever the
normalized error falls inside the dead zone, `compute()` leaves the entire
controller state unchanged (and returns the committed angle). -/
theorem compute_preserves_committed_angle (cy : HeadYawController) (cp : HeadPitchController)
    (target_x frame_width target_y frame_height dty dtp a b : ℚ) :
    ((cy.compute target_x frame_width dty).1).current_yaw = cy.current_yaw ∧
      (|cy.normalize_to_center target_x frame_width| < cy.dead_zone →
        cy.compute target_x frame_width dty = (cy, cy.current_yaw)) ∧
      (cy.update a).current_yaw = a ∧ (cy.reset).current_yaw = 0 ∧
      ((cp.compute target_y frame_height dtp).1).current_pitch = cp.current_pitch ∧
      (|cp.normalize_to_center target_y frame_height| < cp.dead_zone →
        cp.compute target_y frame_height dtp = (cp, cp.current_pitch)) ∧
      (cp.update b).current_pitch = b ∧ (cp.reset).current_pitch = 0 := by
  refine ⟨?_, ?_, rfl, rfl, ?_, ?_, rfl, rfl⟩
  · by_cases hdz : |cy.normalize_to_center target_x frame_width| < cy.dead_zone
    · simp only [HeadYawController.compute, if_pos hdz]
    · simp only [HeadYawController.compute, if_neg hdz]
  · intro hdz
    simp only [HeadYawController.compute, if_pos hdz]
  · by_cases hdz : |cp.normalize_to_center target_y frame_height| < cp.dead_zone
    · simp only [HeadPitchController.compute, if_pos hdz]
    · simp only [HeadPitchController.compute, if_neg hdz]
  · intro hdz
    simp only [HeadPitchController.compute, if_pos hdz]

/-- C8: The first call to `filter(x, y)` on a freshly constructed
`PositionFilter` returns exactly `(x, y)`, and for every prior call history,
`reset()` followed by `filter(x, y)` again returns exactly `(x, y)` —
`reset` restores first-call behaviour. -/
theorem filter_cold_start_reset_roundtrip (window_size : ℕ) (jump_threshold : ℤ) (x y : ℚ)
    (f : PositionFilter) :
    ((PositionFilter.init window_size jump_threshold).filter x y).2 = (x, y) ∧
      ((f.reset).filter x y).2 = (x, y) :=
  ⟨rfl, rfl⟩

/-- C4 (amended): In the tracking loop of `YoloObjectTracker.process_frame`,
whenever no detection arrives and more than `detection_timeout` seconds have
elapsed since the last accepted detection, the tracker leaves the tracking
state (`is_tracking := False`), resets all per-axis controller state
(`current_angle`, `integral`, `last_error` of both axes) and the
position-filter state — but it issues NO actuator command in that tick: the
head simply holds the last commanded pose, no neutral/rest pose is sent. -/
theorem tracking_timeout_resets_without_command (s : YoloObjectTracker)
    (width height current_time : ℚ) (_htrack : s.is_tracking = true)
    (hto : s.detection_timeout < current_time - s.last_detection_time) :
    ((s.process_frame none width height current_time).1).is_tracking = false ∧
      ((s.process_frame none width height current_time).1).pitch_controller.current_pitch = 0 ∧
      ((s.process_frame none width height current_time).1).pitch_controller.integral = 0 ∧
      ((s.process_frame none width height current_time).1).pitch_controller.last_error = 0 ∧
      ((s.process_frame none width height current_time).1).yaw_controller.current_yaw = 0 ∧
      ((s.process_frame none width height current_time).1).yaw_controller.integral = 0 ∧
      ((s.process_frame none width height current_time).1).yaw_controller.last_error = 0 ∧
      ((s.process_frame none width height current_time).1).filter.x_history = [] ∧
      ((s.process_frame none width height current_time).1).filter.y_history = [] ∧
      ((s.process_frame none width height current_time).1).filter.last_output_x = none ∧
      ((s.process_frame none width height current_time).1).filter.last_output_y = none ∧
      (s.process_frame none width height current_time).2 = none := by
  simp [YoloObjectTracker.process_frame, hto, HeadPitchController.reset,
    HeadYawController.reset, PositionFilter.reset]

/-- Witness for C4's amended theorem at a concrete timed-out tracker state. -/
theorem tracking_timeout_resets_without_command_witness :
    ((({ filter := PositionFilter.init 5 30,
         pitch_controller := ⟨1, 0, 0, 1, 1, 0, 1, 1, 1⟩,
         yaw_controller := ⟨1, 0, 0, 1, 3, 0, 1, 1, 1⟩,
         manual_mode := false, is_tracking := true,
         last_detection_time := 1, detection_timeout := 1 } :
        YoloObjectTracker).process_frame none 640 480 10).1).is_tracking = false ∧
      ((({ filter := PositionFilter.init 5 30,
           pitch_controller := ⟨1, 0, 0, 1, 1, 0, 1, 1, 1⟩,
           yaw_controller := ⟨1, 0, 0, 1, 3, 0, 1, 1, 1⟩,
           manual_mode := false, is_tracking := true,
           last_detection_time := 1, detection_timeout := 1 } :
          YoloObjectTracker).process_frame none 640 480 10).1).pitch_controller.current_pitch =
        0 ∧
      ((({ filter := PositionFilter.init 5 30,
           pitch_controller := ⟨1, 0, 0, 1, 1, 0, 1, 1, 1⟩,
           yaw_controller := ⟨1, 0, 0, 1, 3, 0, 1, 1, 1⟩,
           manual_mode := false, is_tracking := true,
           last_detection_time := 1, detection_timeout := 1 } :
          YoloObjectTracker).process_frame none 640 480 10).1).pitch_controller.integral = 0 ∧
      ((({ filter := PositionFilter.init 5 30,
           pitch_controller := ⟨1, 0, 0, 1, 1, 0, 1, 1, 1⟩,
           yaw_controller := ⟨1, 0, 0, 1, 3, 0, 1, 1, 1⟩,
           manual_mode := false, is_tracking := true,
           last_detection_time := 1, detection_timeout := 1 } :
          YoloObjectTracker).process_frame none 640 480 10).1).pitch_controller.last_error = 0 ∧
      ((({ filter := PositionFilter.init 5 30,
           pitch_controller := ⟨1, 0, 0, 1, 1, 0, 1, 1, 1⟩,
           yaw_controller := ⟨1, 0, 0, 1, 3, 0, 1, 1, 1⟩,
           manual_mode := false, is_tracking := true,
           last_detection_time := 1, detection_timeout := 1 } :
          YoloObjectTracker).process_frame none 640 480 10).1).yaw_controller.current_yaw = 0 ∧
      ((({ filter := PositionFilter.init 5 30,
           pitch_controller := ⟨1, 0, 0, 1, 1, 0, 1, 1, 1⟩,
           yaw_controller := ⟨1, 0, 0, 1, 3, 0, 1, 1, 1⟩,
           manual_mode := false, is_tracking := true,
           last_detection_time := 1, detection_timeout := 1 } :
          YoloObjectTracker).process_frame none 640 480 10).1).yaw_controller.integral = 0 ∧
      ((({ filter := PositionFilter.init 5 30,
           pitch_controller := ⟨1, 0, 0, 1, 1, 0, 1, 1, 1⟩,
           yaw_controller := ⟨1, 0, 0, 1, 3, 0, 1, 1, 1⟩,
           manual_mode := false, is_tracking := true,
           last_detection_time := 1, detection_timeout := 1 } :
          YoloObjectTracker).process_frame none 640 480 10).1).yaw_controller.last_error = 0 ∧
      ((({ filter := PositionFilter.init 5 30,
           pitch_controller := ⟨1, 0, 0, 1, 1, 0, 1, 1, 1⟩,
           yaw_controller := ⟨1, 0, 0, 1, 3, 0, 1, 1, 1⟩,
           manual_mode := false, is_tracking := true,
           last_detection_time := 1, detection_timeout := 1 } :
          YoloObjectTracker).process_frame none 640 480 10).1).filter.x_history = [] ∧
      ((({ filter := PositionFilter.init 5 30,
           pitch_controller := ⟨1, 0, 0, 1, 1, 0, 1, 1, 1⟩,
           yaw_controller := ⟨1, 0, 0, 1, 3, 0, 1, 1, 1⟩,
           manual_mode := false, is_tracking := true,
           last_detection_time := 1, detection_timeout := 1 } :
          YoloObjectTracker).process_frame none 640 480 10).1).filter.y_history = [] ∧
      ((({ filter := PositionFilter.init 5 30,
           pitch_controller := ⟨1, 0, 0, 1, 1, 0, 1, 1, 1⟩,
           yaw_controller := ⟨1, 0, 0, 1, 3, 0, 1, 1, 1⟩,
           manual_mode := false, is_tracking := true,
           last_detection_time := 1, detection_timeout := 1 } :
          YoloObjectTracker).process_frame none 640 480 10).1).filter.last_output_x = none ∧
      ((({ filter := PositionFilter.init 5 30,
           pitch_controller := ⟨1, 0, 0, 1, 1, 0, 1, 1, 1⟩,
           yaw_controller := ⟨1, 0, 0, 1, 3, 0, 1, 1, 1⟩,
           manual_mode := false, is_tracking := true,
           last_detection_time := 1, detection_timeout := 1 } :
          YoloObjectTracker).process_frame none 640 480 10).1).filter.last_output_y = none ∧
      (({ filter := PositionFilter.init 5 30,
          pitch_controller := ⟨1, 0, 0, 1, 1, 0, 1, 1, 1⟩,
          yaw_controller := ⟨1, 0, 0, 1, 3, 0, 1, 1, 1⟩,
          manual_mode := false, is_tracking := true,
          last_detection_time := 1, detection_timeout := 1 } :
        YoloObjectTracker).process_frame none 640 480 10).2 = none :=
  tracking_timeout_resets_without_command _ 640 480 10 rfl (by norm_num)

/-- Counterexample to C4 as stated: a tracker in the tracking state whose
timeout has elapsed performs the LOST transition (here witnessed by
`is_tracking` flipping to `false`) yet sends no actuator command at all —
`process_frame` returns `none` where the claim requires a commanded
neutral/rest pose. -/
theorem tracking_timeout_no_pose_counterexample :
    ({ filter := PositionFilter.init 5 30,
       pitch_controller := ⟨1, 0, 0, 1, 1, 0, 1, 1, 1⟩,
       yaw_controller := ⟨1, 0, 0, 1, 3, 0, 1, 1, 1⟩,
       manual_mode := false, is_tracking := true,
       last_detection_time := 1, detection_timeout := 1 } :
      YoloObjectTracker).is_tracking = true ∧
      ({ filter := PositionFilter.init 5 30,
         pitch_controller := ⟨1, 0, 0, 1, 1, 0, 1, 1, 1⟩,
         yaw_controller := ⟨1, 0, 0, 1, 3, 0, 1, 1, 1⟩,
         manual_mode := false, is_tracking := true,
         last_detection_time := 1, detection_timeout := 1 } :
        YoloObjectTracker).detection_timeout < 10 - 1 ∧
      ((({ filter := PositionFilter.init 5 30,
           pitch_controller := ⟨1, 0, 0, 1, 1, 0, 1, 1, 1⟩,
           yaw_controller := ⟨1, 0, 0, 1, 3, 0, 1, 1, 1⟩,
           manual_mode := false, is_tracking := true,
           last_detection_time := 1, detection_timeout := 1 } :
          YoloObjectTracker).process_frame none 640 480 10).1).is_tracking = false ∧
      (({ filter := PositionFilter.init 5 30,
          pitch_controller := ⟨1, 0, 0, 1, 1, 0, 1, 1, 1⟩,
          yaw_controller := ⟨1, 0, 0, 1, 3, 0, 1, 1, 1⟩,
          manual_mode := false, is_tracking := true,
          last_detection_time := 1, detection_timeout := 1 } :
        YoloObjectTracker).process_frame none 640 480 10).2 = none := by
  refine ⟨rfl, by norm_num, ?_, ?_⟩
  · simp only [YoloObjectTracker.process_frame]
    rw [if_pos (by norm_num)]
  · simp only [YoloObjectTracker.process_frame]
    rw [if_pos (by norm_num)]

/-- Appending to a nonempty-capacity deque leaves it nonempty. -/
lemma dequeAppend_length_pos (maxlen : ℕ) (h : List ℚ) (v : ℚ) (hm : 0 < maxlen) :
    0 < (dequeAppend maxlen h v).length := by
  simp only [dequeAppend]
  by_cases hc : maxlen < (h ++ [v]).length
  · rw [if_pos hc, List.length_drop]
    simp only [List.length_append, List.length_cons, List.length_nil] at hc ⊢
    omega
  · rw [if_neg hc]
    simp

/-- C3 (amended): For every call to `PositionFilter.filter(x, y)` after the
first, the jump check is JOINT across the two axes: if the absolute change
relative to the last output exceeds the threshold on EITHER axis, then the
samples appended to BOTH windows are the last outputs plus the per-axis
change clamped to `[-(t // 2), t // 2]` (floor division of the integer
threshold); only when neither axis exceeds the threshold are the raw values
appended.  The returned value per axis is the arithmetic mean of that axis's
window contents and becomes the new last output. -/
theorem filter_joint_jump_suppression (f : PositionFilter) (x y last_x last_y : ℚ)
    (hx : f.last_output_x = some last_x) (hy : f.last_output_y = some last_y)
    (hw : 0 < f.window_size) :
    (f.filter x y).1.x_history =
        dequeAppend f.window_size f.x_history
          (if (f.jump_threshold : ℚ) < |x - last_x| ∨ (f.jump_threshold : ℚ) < |y - last_y| then
            last_x + clampQ ((Int.fdiv (-f.jump_threshold) 2 : ℤ) : ℚ)
              ((Int.fdiv f.jump_threshold 2 : ℤ) : ℚ) (x - last_x)
          else x) ∧
      (f.filter x y).1.y_history =
        dequeAppend f.window_size f.y_history
          (if (f.jump_threshold : ℚ) < |x - last_x| ∨ (f.jump_threshold : ℚ) < |y - last_y| then
            last_y + clampQ ((Int.fdiv (-f.jump_threshold) 2 : ℤ) : ℚ)
              ((Int.fdiv f.jump_threshold 2 : ℤ) : ℚ) (y - last_y)
          else y) ∧
      (f.filter x y).2.1 =
        ((f.filter x y).1.x_history.sum) / ((f.filter x y).1.x_history.length : ℚ) ∧
      (f.filter x y).2.2 =
        ((f.filter x y).1.y_history.sum) / ((f.filter x y).1.y_history.length : ℚ) ∧
      (f.filter x y).1.last_output_x = some ((f.filter x y).2.1) ∧
      (f.filter x y).1.last_output_y = some ((f.filter x y).2.2) := by
  obtain ⟨ws, jt, xh, yh, lox, loy⟩ := f
  simp only at hx hy hw
  subst hx
  subst hy
  by_cases hcond : (jt : ℚ) < |x - last_x| ∨ (jt : ℚ) < |y - last_y|
  · simp only [PositionFilter.filter, hcond, if_true, if_pos hcond]
    refine ⟨trivial, trivial, ?_, ?_, trivial, trivial⟩ <;>
      rw [if_pos (dequeAppend_length_pos ws _ _ hw)]
  · simp only [PositionFilter.filter, hcond, if_false, if_neg hcond]
    refine ⟨trivial, trivial, ?_, ?_, trivial, trivial⟩ <;>
      rw [if_pos (dequeAppend_length_pos ws _ _ hw)]

/-- Witness for C3's amended theorem: second call `filter(100, 20)` after a
first call that set both last outputs to 0, window 5, threshold 30. -/
theorem filter_joint_jump_suppression_witness :
    ((⟨5, 30, [0], [0], some 0, some 0⟩ : PositionFilter).filter 100 20).1.x_history =
        dequeAppend 5 [0]
          (if ((30 : ℤ) : ℚ) < |100 - 0| ∨ ((30 : ℤ) : ℚ) < |20 - 0| then
            0 + clampQ ((Int.fdiv (-(30 : ℤ)) 2 : ℤ) : ℚ) ((Int.fdiv (30 : ℤ) 2 : ℤ) : ℚ)
              (100 - 0)
          else 100) ∧
      ((⟨5, 30, [0], [0], some 0, some 0⟩ : PositionFilter).filter 100 20).1.y_history =
        dequeAppend 5 [0]
          (if ((30 : ℤ) : ℚ) < |100 - 0| ∨ ((30 : ℤ) : ℚ) < |20 - 0| then
            0 + clampQ ((Int.fdiv (-(30 : ℤ)) 2 : ℤ) : ℚ) ((Int.fdiv (30 : ℤ) 2 : ℤ) : ℚ)
              (20 - 0)
          else 20) ∧
      ((⟨5, 30, [0], [0], some 0, some 0⟩ : PositionFilter).filter 100 20).2.1 =
        (((⟨5, 30, [0], [0], some 0, some 0⟩ : PositionFilter).filter 100 20).1.x_history.sum) /
          ((((⟨5, 30, [0], [0], some 0, some 0⟩ :
            PositionFilter).filter 100 20).1.x_history.length : ℚ)) ∧
      ((⟨5, 30, [0], [0], some 0, some 0⟩ : PositionFilter).filter 100 20).2.2 =
        (((⟨5, 30, [0], [0], some 0, some 0⟩ : PositionFilter).filter 100 20).1.y_history.sum) /
          ((((⟨5, 30, [0], [0], some 0, some 0⟩ :
            PositionFilter).filter 100 20).1.y_history.length : ℚ)) ∧
      ((⟨5, 30, [0], [0], some 0, some 0⟩ : PositionFilter).filter 100 20).1.last_output_x =
        some (((⟨5, 30, [0], [0], some 0, some 0⟩ : PositionFilter).filter 100 20).2.1) ∧
      ((⟨5, 30, [0], [0], some 0, some 0⟩ : PositionFilter).filter 100 20).1.last_output_y =
        some (((⟨5, 30, [0], [0], some 0, some 0⟩ : PositionFilter).filter 100 20).2.2) :=
  filter_joint_jump_suppression ⟨5, 30, [0], [0], some 0, some 0⟩ 100 20 0 0 rfl rfl
    (by norm_num)

/-- Counterexample to C3 as stated: after a first call `filter(0, 0)`
(defaults: window 5, threshold 30), the call `filter(100, 20)` has a y-axis
change of only 20 ≤ 30, so the per-axis reading of the claim requires the
raw y value 20 to be appended to the y window; the code instead clamps BOTH
axes because the x change (100) exceeds the threshold, appending 15. -/
theorem filter_per_axis_suppression_counterexample :
    |(20 : ℚ) - 0| ≤ ((30 : ℤ) : ℚ) ∧
      ((((PositionFilter.init 5 30).filter 0 0).1).filter 100 20).1.y_history = [0, 15] ∧
      ((((PositionFilter.init 5 30).filter 0 0).1).filter 100 20).1.y_history ≠ [0, 20] := by
  have h1 : ((PositionFilter.init 5 30).filter 0 0).1 =
      (⟨5, 30, [0], [0], some 0, some 0⟩ : PositionFilter) := rfl
  have hf1 : Int.fdiv (-(30 : ℤ)) 2 = -15 := by decide
  have hf2 : Int.fdiv (30 : ℤ) 2 = 15 := by decide
  have h2 : ((((PositionFilter.init 5 30).filter 0 0).1).filter 100 20).1.y_history =
      [0, 15] := by
    rw [h1]
    simp only [PositionFilter.filter]
    rw [if_pos (Or.inl (by norm_num [abs_of_nonneg]))]
    simp only [hf1, hf2, dequeAppend, clampQ]
    norm_num [min_def, max_def]
  refine ⟨by norm_num, h2, ?_⟩
  rw [h2]
  intro hcontra
  rw [List.cons.injEq, List.cons.injEq] at hcontra
  norm_num at hcontra

/-- Squared distance to the frame center is nonnegative. -/
lemma distSqToCenter_nonneg (frame_width frame_height : ℚ) (d : Detection) :
    0 ≤ distSqToCenter frame_width frame_height d := by
  unfold distSqToCenter
  positivity

/-- Monotone bridge: smaller-or-equal squared distance gives smaller-or-equal
Euclidean distance. -/
lemma eucDist_le_of_distSq_le {frame_width frame_height : ℚ} {a b : Detection}
    (hq : distSqToCenter frame_width frame_height a ≤
      distSqToCenter frame_width frame_height b) :
    eucDistToCenter frame_width frame_height a ≤ eucDistToCenter frame_width frame_height b :=
  Real.sqrt_le_sqrt (by exact_mod_cast hq)

/-- Strict monotone bridge for Euclidean distances. -/
lemma eucDist_lt_of_distSq_lt {frame_width frame_height : ℚ} {a b : Detection}
    (hq : distSqToCenter frame_width frame_height a <
      distSqToCenter frame_width frame_height b) :
    eucDistToCenter frame_width frame_height a < eucDistToCenter frame_width frame_height b :=
  Real.sqrt_lt_sqrt (by exact_mod_cast distSqToCenter_nonneg frame_width frame_height a)
    (by exact_mod_cast hq)

/-- Invariant of the selection loop: starting from a current best `b`, the
loop returns the first strict improver chain's end — either `b` itself (when
nothing in the remaining list is strictly closer) or the first element of the
list that is strictly closer than `b` and at least as close as everything
else. -/
lemma selectLoop_first_argmin (frame_width frame_height : ℚ) (l : List Detection) :
    ∀ b : Detection,
      ∃ c : Detection,
        selectLoop frame_width frame_height l
            (some (b, distSqToCenter frame_width frame_height b)) =
          some (c, distSqToCenter frame_width frame_height c) ∧
        ((c = b ∧ ∀ k ∈ l, distSqToCenter frame_width frame_height b ≤
            distSqToCenter frame_width frame_height k) ∨
          ∃ l1 l2, l = l1 ++ c :: l2 ∧
            distSqToCenter frame_width frame_height c <
              distSqToCenter frame_width frame_height b ∧
            (∀ k ∈ l1, distSqToCenter frame_width frame_height c <
              distSqToCenter frame_width frame_height k) ∧
            ∀ k ∈ l2, distSqToCenter frame_width frame_height c ≤
              distSqToCenter frame_width frame_height k) := by
  induction l with
  | nil =>
    intro b
    exact ⟨b, rfl, Or.inl ⟨rfl, by simp⟩⟩
  | cons d rest ih =>
    intro b
    by_cases hd : distSqToCenter frame_width frame_height d <
        distSqToCenter frame_width frame_height b
    · obtain ⟨c, hc, hres⟩ := ih d
      refine ⟨c, ?_, ?_⟩
      · simp only [selectLoop]
        rw [if_pos hd]
        exact hc
      · rcases hres with ⟨rfl, hall⟩ | ⟨l1, l2, hsplit, hlt, h1, h2⟩
        · exact Or.inr ⟨[], rest, by simp, hd, by simp, hall⟩
        · refine Or.inr ⟨d :: l1, l2, by rw [hsplit]; rfl, lt_trans hlt hd, ?_, h2⟩
          intro k hk
          rcases List.mem_cons.mp hk with rfl | hk2
          · exact hlt
          · exact h1 k hk2
    · have hbd : distSqToCenter frame_width frame_height b ≤
          distSqToCenter frame_width frame_height d := not_lt.mp hd
      obtain ⟨c, hc, hres⟩ := ih b
      refine ⟨c, ?_, ?_⟩
      · simp only [selectLoop]
        rw [if_neg hd]
        exact hc
      · rcases hres with ⟨rfl, hall⟩ | ⟨l1, l2, hsplit, hlt, h1, h2⟩
        · refine Or.inl ⟨rfl, ?_⟩
          intro k hk
          rcases List.mem_cons.mp hk with rfl | hk2
          · exact hbd
          · exact hall k hk2
        · refine Or.inr ⟨d :: l1, l2, by rw [hsplit]; rfl, hlt, ?_, h2⟩
          intro k hk
          rcases List.mem_cons.mp hk with rfl | hk2
          · exact lt_of_lt_of_le hlt hbd
          · exact h1 k hk2

/-- C6: The target selector returns `None` exactly on an empty detection
list; `find_target_center` selects the same detection as
`select_best_target`; and on a non-empty list the selected detection is the
one whose box center has minimum Euclidean distance to the frame's geometric
center, with ties resolved in favour of the first such detection in input
order (everything strictly earlier is strictly farther).  The selector is a
pure function of its inputs (it is modelled as one). -/
theorem select_best_target_first_closest (detections : List Detection)
    (frame_width frame_height : ℚ) :
    (select_best_target detections frame_width frame_height = none ↔ detections = []) ∧
      (find_target_center detections frame_width frame_height).2.1 =
        select_best_target detections frame_width frame_height ∧
      (detections ≠ [] →
        ∃ l1 c l2, detections = l1 ++ c :: l2 ∧
          select_best_target detections frame_width frame_height = some c ∧
          (∀ d' ∈ detections,
            eucDistToCenter frame_width frame_height c ≤
              eucDistToCenter frame_width frame_height d') ∧
          ∀ d' ∈ l1,
            eucDistToCenter frame_width frame_height c <
              eucDistToCenter frame_width frame_height d') := by
  cases detections with
  | nil =>
    refine ⟨by simp [select_best_target], by simp [find_target_center, select_best_target], ?_⟩
    intro hne
    exact absurd rfl hne
  | cons d rest =>
    have hne : d :: rest ≠ [] := by simp
    have hstep : selectLoop frame_width frame_height (d :: rest) none =
        selectLoop frame_width frame_height rest
          (some (d, distSqToCenter frame_width frame_height d)) := by
      simp only [selectLoop]
    obtain ⟨c, hc, hres⟩ := selectLoop_first_argmin frame_width frame_height rest d
    have hsel : select_best_target (d :: rest) frame_width frame_height = some c := by
      simp only [select_best_target, if_neg hne]
      rw [hstep, hc]
    have hfind : (find_target_center (d :: rest) frame_width frame_height).2.1 = some c := by
      simp only [find_target_center, if_neg hne]
      rw [hstep, hc]
    refine ⟨by simp [hsel], by rw [hfind, hsel], ?_⟩
    intro _
    rcases hres with ⟨rfl, hall⟩ | ⟨l1, l2, hsplit, hlt, h1, h2⟩
    · refine ⟨[], c, rest, rfl, hsel, ?_, by simp⟩
      intro k hk
      rcases List.mem_cons.mp hk with rfl | hk2
      · exact le_rfl
      · exact eucDist_le_of_distSq_le (hall k hk2)
    · refine ⟨d :: l1, c, l2, by rw [hsplit]; rfl, hsel, ?_, ?_⟩
      · intro k hk
        rw [hsplit] at hk
        rcases List.mem_cons.mp hk with rfl | hk2
        · exact eucDist_le_of_distSq_le (le_of_lt hlt)
        · rcases List.mem_append.mp hk2 with hk3 | hk4
          · exact eucDist_le_of_distSq_le (le_of_lt (h1 k hk3))
          · rcases List.mem_cons.mp hk4 with rfl | hk5
            · exact le_rfl
            · exact eucDist_le_of_distSq_le (h2 k hk5)
      · intro k hk
        rcases List.mem_cons.mp hk with rfl | hk2
        · exact eucDist_lt_of_distSq_lt hlt
        · exact eucDist_lt_of_distSq_lt (h1 k hk2)

/-- Running the gate over a concatenation splits into two runs. -/
lemma runVAD_append (v : VoiceActivityDetector) (l1 l2 : List (ℚ × Bool)) :
    runVAD v (l1 ++ l2) =
      ((runVAD (runVAD v l1).1 l2).1, (runVAD v l1).2 ++ (runVAD (runVAD v l1).1 l2).2) := by
  induction l1 generalizing v with
  | nil => simp [runVAD]
  | cons p l1 ih =>
    obtain ⟨t, b⟩ := p
    simp only [List.cons_append, runVAD, List.append_eq]
    rw [ih]

/-- While speech persists but its elapsed duration stays below
`min_duration`, the gate keeps returning `False` and its state is unchanged. -/
lemma runVAD_accumulating (μ κ ld t0 : ℚ) (ts : List ℚ)
    (hts : ∀ t ∈ ts, t - t0 < μ) :
    runVAD ⟨μ, κ, some t0, ld, false⟩ (ts.map fun t => (t, true)) =
      (⟨μ, κ, some t0, ld, false⟩, ts.map fun _ => false) := by
  induction ts with
  | nil => rfl
  | cons t ts ih =>
    have hstep : (⟨μ, κ, some t0, ld, false⟩ : VoiceActivityDetector).update t true =
        (⟨μ, κ, some t0, ld, false⟩, false) := by
      simp [VoiceActivityDetector.update, VoiceActivityDetector.updateSpeech,
        not_le.mpr (hts t (List.mem_cons_self t ts))]
    simp only [List.map_cons, runVAD, hstep]
    rw [ih fun t' ht' => hts t' (List.mem_cons_of_mem _ ht')]

/-- During cooldown every input is ignored: the gate returns `False` and its
state is unchanged as long as less than `cooldown` seconds have elapsed since
the firing time `tf`. -/
lemma runVAD_cooldown (μ κ tf : ℚ) (posts : List (ℚ × Bool))
    (hposts : ∀ p ∈ posts, p.1 - tf < κ) :
    runVAD ⟨μ, κ, none, tf, true⟩ posts =
      (⟨μ, κ, none, tf, true⟩, posts.map fun _ => false) := by
  induction posts with
  | nil => rfl
  | cons p posts ih =>
    obtain ⟨t, b⟩ := p
    have hstep : (⟨μ, κ, none, tf, true⟩ : VoiceActivityDetector).update t b =
        (⟨μ, κ, none, tf, true⟩, false) := by
      simp [VoiceActivityDetector.update,
        not_le.mpr (hposts (t, b) (List.mem_cons_self (t, b) posts))]
    simp only [runVAD, hstep]
    rw [ih fun p' hp' => hposts p' (List.mem_cons_of_mem _ hp')]
    simp

/-- C5: Starting from a ready gate (no accumulated speech, not in cooldown):
a run of `True` inputs whose elapsed durations all stay below `min_duration`,
ended by a `False` input, never returns `True` and leaves no partial credit
(the accumulated start time is cleared); and a continuous run of `True`
inputs whose elapsed duration reaches `min_duration` at time `tf` returns
`True` exactly once — `False` at every earlier input, `True` at `tf`, then
`False` for every input (of either polarity) during the following `cooldown`
seconds. -/
theorem vad_gate_debounce (v0 : VoiceActivityDetector) (t0 tF tf : ℚ) (ts : List ℚ)
    (posts : List (ℚ × Bool)) (h0 : v0.speech_start_time = none)
    (hc : v0.in_cooldown = false) (hts : ∀ t ∈ ts, t - t0 < v0.min_duration) :
    ((runVAD v0 (((t0 :: ts).map fun t => (t, true)) ++ [(tF, false)])).2 =
        ((t0 :: ts).map fun _ => false) ++ [false] ∧
      (runVAD v0 (((t0 :: ts).map fun t => (t, true)) ++
        [(tF, false)])).1.speech_start_time = none) ∧
      (v0.min_duration ≤ tf - t0 → (∀ p ∈ posts, p.1 - tf < v0.cooldown) →
        (runVAD v0 (((t0 :: ts).map fun t => (t, true)) ++ (tf, true) :: posts)).2 =
          ((t0 :: ts).map fun _ => false) ++ true :: posts.map fun _ => false) := by
  obtain ⟨μ, κ, ss, ld, ic⟩ := v0
  simp only at h0 hc hts
  subst h0
  subst hc
  have hinit : (⟨μ, κ, none, ld, false⟩ : VoiceActivityDetector).update t0 true =
      (⟨μ, κ, some t0, ld, false⟩, false) := by
    simp [VoiceActivityDetector.update, VoiceActivityDetector.updateSpeech]
  have hA : runVAD ⟨μ, κ, none, ld, false⟩
      (((t0 :: ts).map fun t => (t, true)) ++ [(tF, false)]) =
      (⟨μ, κ, none, ld, false⟩, ((t0 :: ts).map fun _ => false) ++ [false]) := by
    have hfalse : (⟨μ, κ, some t0, ld, false⟩ : VoiceActivityDetector).update tF false =
        (⟨μ, κ, none, ld, false⟩, false) := by
      simp [VoiceActivityDetector.update, VoiceActivityDetector.updateSpeech]
    rw [List.map_cons, List.map_cons, List.cons_append, List.cons_append]
    simp only [runVAD, hinit]
    rw [runVAD_append, runVAD_accumulating μ κ ld t0 ts hts]
    simp [runVAD, hfalse]
  refine ⟨⟨by rw [hA], by rw [hA]⟩, ?_⟩
  intro hμf hposts
  simp only at hμf hposts
  have hfire : (⟨μ, κ, some t0, ld, false⟩ : VoiceActivityDetector).update tf true =
      (⟨μ, κ, none, tf, true⟩, true) := by
    simp [VoiceActivityDetector.update, VoiceActivityDetector.updateSpeech, hμf]
  rw [List.map_cons, List.map_cons, List.cons_append, List.cons_append]
  simp only [runVAD, hinit]
  rw [runVAD_append, runVAD_accumulating μ κ ld t0 ts hts]
  simp only [runVAD, hfire]
  rw [runVAD_cooldown μ κ tf posts hposts]

/-- Witness for C5: gate with `min_duration = 2`, `cooldown = 3`; speech
starts at t = 10, continues at t = 11 (too short so far), aborted run ends
with `False` at t = 15; firing run reaches duration 10 ≥ 2 at t = 20, then
inputs at t = 21, 22 fall inside the cooldown window. -/
theorem vad_gate_debounce_witness :
    ((runVAD (⟨2, 3, none, 0, false⟩ : VoiceActivityDetector)
          (([(10 : ℚ), 11].map fun t => (t, true)) ++ [((15 : ℚ), false)])).2 =
        ([(10 : ℚ), 11].map fun _ => false) ++ [false] ∧
      (runVAD (⟨2, 3, none, 0, false⟩ : VoiceActivityDetector)
          (([(10 : ℚ), 11].map fun t => (t, true)) ++
            [((15 : ℚ), false)])).1.speech_start_time = none) ∧
      ((2 : ℚ) ≤ 20 - 10 → (∀ p ∈ [((21 : ℚ), true), ((22 : ℚ), false)], p.1 - 20 < (3 : ℚ)) →
        (runVAD (⟨2, 3, none, 0, false⟩ : VoiceActivityDetector)
            (([(10 : ℚ), 11].map fun t => (t, true)) ++
              ((20 : ℚ), true) :: [((21 : ℚ), true), ((22 : ℚ), false)])).2 =
          ([(10 : ℚ), 11].map fun _ => false) ++
            true :: [((21 : ℚ), true), ((22 : ℚ), false)].map fun _ => false) :=
  vad_gate_debounce ⟨2, 3, none, 0, false⟩ 10 15 20 [11] [(21, true), (22, false)] rfl rfl
    (by intro t ht; rw [List.mem_singleton] at ht; subst ht; norm_num)

/-- Supporting invariant for the reachable-state hypothesis of the clamping
claim: a full control tick (`compute` then `update`) keeps the committed yaw
within the limit, so every state the tracking loop can put the controller in
satisfies `|current_yaw| ≤ yaw_limit` (it holds at construction, where
`current_yaw = 0` and the limit is nonnegative, and after `reset`). -/
lemma tickYaw_preserves_limit (c : HeadYawController) (target_x frame_width dt : ℚ)
    (h : |c.current_yaw| ≤ c.yaw_limit) :
    |(c.tickYaw target_x frame_width dt).current_yaw| ≤
      (c.tickYaw target_x frame_width dt).yaw_limit := by
  have hcur : (c.tickYaw target_x frame_width dt).current_yaw =
      (c.compute target_x frame_width dt).2 := rfl
  have hlim : (c.tickYaw target_x frame_width dt).yaw_limit = c.yaw_limit := by
    by_cases hdz : |c.normalize_to_center target_x frame_width| < c.dead_zone
    · simp only [HeadYawController.tickYaw, HeadYawController.update,
        HeadYawController.compute, if_pos hdz]
    · simp only [HeadYawController.tickYaw, HeadYawController.update,
        HeadYawController.compute, if_neg hdz]
  rw [hcur, hlim]
  by_cases hdz : |c.normalize_to_center target_x frame_width| < c.dead_zone
  · simp only [HeadYawController.compute, if_pos hdz]
    exact h
  · simp only [HeadYawController.compute, if_neg hdz]
    exact abs_clampQ_le _ _ ((abs_nonneg _).trans h)
